import Mathlib

/-!
Verification development for the FiberTrace conveyor demo.

The embedding follows the two Python sources:
- src/fibertrace_demo.py : classifier (classify_item), persistence
  (load_data / save_data over module globals), hardware constants;
- src/app.py : the web scan endpoint (perform_scan) that orchestrates
  capture, classification, counter update and actuation.

Pixels are BGR triples of natural numbers (0-255); a frame is a list of
rows.  Real-number arithmetic of the sources (numpy means, Python floats)
is embedded as exact rational arithmetic; Python round / percent-format
is embedded as round-half-to-even (pyRound).
-/

namespace FiberTrace

/-! ## Hardware constants (fibertrace_demo.py lines 26-36) -/

def GOOD_ANGLE : ℕ := 40
def BAD_ANGLE : ℕ := 140
def CENTER_ANGLE : ℕ := 90

/-! ## Frames -/

/-- A pixel in OpenCV BGR channel order: (blue, green, red). -/
abbrev Pixel := ℕ × ℕ × ℕ

/-- A frame is a list of pixel rows (`frame.shape = (h, w, 3)`). -/
abbrev Frame := List (List Pixel)

def frameH (f : Frame) : ℕ := f.length

def frameW (f : Frame) : ℕ := (f.headD []).length

/-- A frame is rectangular when every row has the full width (numpy
arrays delivered by the camera always are). -/
def Rectangular (f : Frame) : Prop := ∀ row ∈ f, row.length = frameW f

/-- The central crop of `classify_item` (fibertrace_demo.py lines 202-212):
`box_size = min(w, h) // 4`, `roi = frame[cy-box : cy+box, cx-box : cx+box]`. -/
def roi (f : Frame) : Frame :=
  let h := frameH f
  let w := frameW f
  let cx := w / 2
  let cy := h / 2
  let box_size := min w h / 4
  let x1 := cx - box_size
  let x2 := cx + box_size
  let y1 := cy - box_size
  let y2 := cy + box_size
  ((f.drop y1).take (y2 - y1)).map (fun row => (row.drop x1).take (x2 - x1))

def sumChan (sel : Pixel → ℕ) (g : Frame) : ℕ :=
  (g.map (fun row => (row.map sel).sum)).sum

def pixCount (g : Frame) : ℕ := (g.map List.length).sum

/-- Mean of the blue channel over the ROI (`roi.mean(axis=0).mean(axis=0)`;
for a rectangular region the iterated mean is the overall mean). -/
def mean_b (f : Frame) : ℚ := (sumChan (fun p => p.1) (roi f) : ℚ) / (pixCount (roi f) : ℚ)

def mean_g (f : Frame) : ℚ := (sumChan (fun p => p.2.1) (roi f) : ℚ) / (pixCount (roi f) : ℚ)

def mean_r (f : Frame) : ℚ := (sumChan (fun p => p.2.2) (roi f) : ℚ) / (pixCount (roi f) : ℚ)

/-! ## Classifier (fibertrace_demo.py lines 197-262) -/

/-- Channel fractions in code order (blue, green, red):
divide each mean by the total, or default each to `0.33` when the
total is not positive (fibertrace_demo.py lines 219-225). -/
def channel_ratios (f : Frame) : ℚ × ℚ × ℚ :=
  let total := mean_b f + mean_g f + mean_r f
  if total > 0 then
    (mean_b f / total, mean_g f / total, mean_r f / total)
  else
    (33/100, 33/100, 33/100)

def cotton_purity (f : Frame) : ℚ := ((channel_ratios f).2.2 + (channel_ratios f).2.1) * 100

def poly_contamination (f : Frame) : ℚ := (channel_ratios f).1 * 100

/-- `blue_dominant = (mean_b > mean_g + 20) and (mean_b > mean_r + 20)`
(fibertrace_demo.py line 236). -/
def blue_dominant (f : Frame) : Bool :=
  decide (mean_b f > mean_g f + 20) && decide (mean_b f > mean_r f + 20)

/-- Python `round` (banker's rounding, half to even) to an integer. -/
def pyRound (x : ℚ) : ℤ :=
  if x - Int.floor x = 1/2 then
    (if Even (Int.floor x) then Int.floor x else Int.floor x + 1)
  else round x

/-- Python `round(x, 1)`: one decimal place, half to even. -/
def round1 (x : ℚ) : ℚ := (pyRound (10 * x) : ℚ) / 10

/-- Python `f-string` format `:.0f` (nearest integer, half to even). -/
def fmt0 (x : ℚ) : String := toString (pyRound x)

/-- The dict returned by `classify_item`. -/
structure ClassificationResult where
  result : String
  purity : ℚ
  composition : String
  cotton_pct : ℚ
  poly_pct : ℚ
deriving DecidableEq

/-- `classify_item` (fibertrace_demo.py lines 197-262). -/
def classify_item (f : Frame) : ClassificationResult :=
  let cotton := cotton_purity f
  let poly := poly_contamination f
  if blue_dominant f then
    let purity := max 0 (100 - poly)
    { result := "BAD"
      purity := round1 purity
      composition := fmt0 purity ++ "% Cotton, " ++ fmt0 poly ++ "% Poly Blend"
      cotton_pct := round1 cotton
      poly_pct := round1 poly }
  else
    let purity := min 100 (cotton + 10)
    { result := "GOOD"
      purity := round1 purity
      composition := if purity ≥ 98 then "100% Pure Cotton" else fmt0 purity ++ "% Cotton"
      cotton_pct := round1 cotton
      poly_pct := round1 poly }

/-! ## Persistence (fibertrace_demo.py lines 41-86)

`total_scanned`, `good_count`, `bad_count` are module globals of
fibertrace_demo.py; `load_data` reads the JSON file and overwrites the
globals from it, `save_data` writes the globals plus a fresh timestamp. -/

/-- The three module-global counters of fibertrace_demo.py. -/
structure Globals where
  total_scanned : ℕ
  good_count : ℕ
  bad_count : ℕ
deriving DecidableEq

/-- What the persisted JSON file can hold:
missing file, unreadable/unparsable content, a JSON document that is not
an object (so `data.get` raises, swallowed by the bare `except`), the
JSON document `null`, or an object with optional fields. -/
inductive FileContent where
  | missing
  | corrupt
  | nonDict
  | null
  | doc (total_scanned good_count bad_count : Option ℕ)
        (last_update : Option ℚ) (last_result : Option String)
deriving DecidableEq

/-- A Python dict as returned by `load_data` / built by `perform_scan`:
each key optionally present.  `last_result` is written by `perform_scan`
with the whole classification dict (`Sum.inr`); a string value could only
come from the file (`Sum.inl`). -/
structure LoadedDict where
  total_scanned : Option ℕ
  good_count : Option ℕ
  bad_count : Option ℕ
  last_update : Option ℚ
  last_result : Option (String ⊕ ClassificationResult)
deriving DecidableEq

/-- The default dict `load_data` returns when the file is missing,
corrupt, or parses to `null` (fibertrace_demo.py lines 55-61, 70-75). -/
def zeroDict : LoadedDict :=
  { total_scanned := some 0, good_count := some 0, bad_count := some 0
    last_update := some 0, last_result := none }

/-- `load_data` (fibertrace_demo.py lines 48-75): takes the file content and
the current globals, returns the new globals and the returned dict.
Only a successfully parsed JSON object assigns the globals; every failure
path falls through to the zeroed default without touching them. -/
def load_data : FileContent → Globals → Globals × LoadedDict
  | .missing, g => (g, zeroDict)
  | .corrupt, g => (g, zeroDict)
  | .nonDict, g => (g, zeroDict)
  | .null, g => (g, zeroDict)
  | .doc t gd b lu lr, _ =>
      (⟨t.getD 0, gd.getD 0, b.getD 0⟩, ⟨t, gd, b, lu, lr.map Sum.inl⟩)

/-- `save_data` (fibertrace_demo.py lines 77-86): overwrites the file with
the three globals and `time.time()`; it never writes `last_result`. -/
def save_data (g : Globals) (now : ℚ) : FileContent :=
  .doc (some g.total_scanned) (some g.good_count) (some g.bad_count) (some now) none

/-- The counter triple an observer reading the file through `load_data`
would see (missing/corrupt/null all read as zeros). -/
def persistedCounters : FileContent → ℕ × ℕ × ℕ
  | .doc t gd b _ _ => (t.getD 0, gd.getD 0, b.getD 0)
  | _ => (0, 0, 0)

/-! ## Hardware state and the web scan endpoint (app.py lines 84-135) -/

/-- LED and gate-servo state. -/
structure Hw where
  green : Bool
  red : Bool
  gate : ℕ
deriving DecidableEq

/-- Both LEDs off, gate at the center angle. -/
def neutralHw : Hw := ⟨false, false, CENTER_ANGLE⟩

/-- State touched by `perform_scan`: the fibertrace_demo module globals,
the persisted file, and the hardware. -/
structure ScanState where
  g : Globals
  file : FileContent
  hw : Hw
deriving DecidableEq

/-- Where an unexpected exception can be raised inside the `try` block of
`perform_scan`; the `except` clause turns it into a failure return with
the state as mutated so far. -/
inductive RaisePoint where
  | atImwrite
  | atClassify
  | atLoad
  | atLed
  | atGate
  | atSave
  | atReset
deriving DecidableEq

/-- The JSON payload `perform_scan` returns. -/
inductive ScanRet where
  | failure (error : String)
  | success (result : ClassificationResult) (data : LoadedDict)
deriving DecidableEq

/-- `perform_scan` (app.py lines 84-135).  `frame` is what `get_frame`
produced, `now` the value of `time.time()`, `exn` injects at most one
unexpected exception.  Note two faithful details of the source:
`result` is the whole dict returned by `classify_item`, so the test
`result == "GOOD"` compares a dict with a string and is always False in
Python (the else branch always runs); and the final `save_data()` writes
the fibertrace_demo module globals, not the local `data` dict. -/
def perform_scan (st : ScanState) (frame : Option Frame) (now : ℚ)
    (exn : Option RaisePoint) : ScanState × ScanRet :=
  match frame with
  | none => (st, .failure "Could not capture frame")
  | some fr =>
    if exn = some .atImwrite then (st, .failure "exn") else
    if exn = some .atClassify then (st, .failure "exn") else
    let result := classify_item fr
    if exn = some .atLoad then (st, .failure "exn") else
    let gd := load_data st.file st.g
    let st1 : ScanState := { st with g := gd.1 }
    let data1 : LoadedDict :=
      { gd.2 with total_scanned := some (gd.2.total_scanned.getD 0 + 1) }
    let data2 : LoadedDict :=
      { data1 with bad_count := some (data1.bad_count.getD 0 + 1) }
    if exn = some .atLed then (st1, .failure "exn") else
    let st2 : ScanState := { st1 with hw := { st1.hw with green := false, red := true } }
    if exn = some .atGate then (st2, .failure "exn") else
    let st3 : ScanState := { st2 with hw := { st2.hw with gate := BAD_ANGLE } }
    let data3 : LoadedDict :=
      { data2 with last_update := some now, last_result := some (Sum.inr result) }
    if exn = some .atSave then (st3, .failure "exn") else
    let st4 : ScanState := { st3 with file := save_data st3.g now }
    if exn = some .atReset then (st4, .failure "exn") else
    let st5 : ScanState := { st4 with hw := neutralHw }
    (st5, .success result data3)

/-! ## Concrete frames for evaluation -/

def constFrame (h w : ℕ) (p : Pixel) : Frame := List.replicate h (List.replicate w p)

/-- Uniform blue-dominant frame, mean BGR (200, 50, 50). -/
def bluePaper : Frame := constFrame 4 4 (200, 50, 50)

/-- Uniform mid-gray frame, mean BGR (100, 100, 100). -/
def grayPaper : Frame := constFrame 4 4 (100, 100, 100)

/-- Uniform frame with mean BGR (50, 200, 200). -/
def tealPaper : Frame := constFrame 4 4 (50, 200, 200)

/-- Uniform white frame — classified GOOD. -/
def whitePaper : Frame := constFrame 4 4 (255, 255, 255)

/-- All-black frame: every channel mean is 0. -/
def blackPaper : Frame := constFrame 4 4 (0, 0, 0)

/-- An 8x8 frame, used to measure the ROI dimensions. -/
def eightFrame : Frame := constFrame 8 8 (0, 0, 0)

/-- A 5x6 rectangular frame. -/
def smallFrame : Frame := constFrame 5 6 (10, 20, 30)

/-- A concrete pre-scan state for the web endpoint: module globals
(5, 3, 2), a persisted file holding the same counters with timestamp 100,
hardware in the neutral position. -/
def webState : ScanState :=
  ⟨⟨5, 3, 2⟩, .doc (some 5) (some 3) (some 2) (some 100) none, neutralHw⟩

/-! ## Evaluation lemmas for the concrete frames -/

theorem roi_bluePaper :
    roi bluePaper = [[(200, 50, 50), (200, 50, 50)], [(200, 50, 50), (200, 50, 50)]] := by
  decide

theorem roi_grayPaper :
    roi grayPaper = [[(100, 100, 100), (100, 100, 100)], [(100, 100, 100), (100, 100, 100)]] := by
  decide

theorem roi_tealPaper :
    roi tealPaper = [[(50, 200, 200), (50, 200, 200)], [(50, 200, 200), (50, 200, 200)]] := by
  decide

theorem roi_whitePaper :
    roi whitePaper = [[(255, 255, 255), (255, 255, 255)], [(255, 255, 255), (255, 255, 255)]] := by
  decide

theorem roi_blackPaper :
    roi blackPaper = [[(0, 0, 0), (0, 0, 0)], [(0, 0, 0), (0, 0, 0)]] := by
  decide

theorem mean_b_bluePaper : mean_b bluePaper = 200 := by
  norm_num [mean_b, roi_bluePaper, sumChan, pixCount]

theorem mean_g_bluePaper : mean_g bluePaper = 50 := by
  norm_num [mean_g, roi_bluePaper, sumChan, pixCount]

theorem mean_r_bluePaper : mean_r bluePaper = 50 := by
  norm_num [mean_r, roi_bluePaper, sumChan, pixCount]

theorem mean_b_grayPaper : mean_b grayPaper = 100 := by
  norm_num [mean_b, roi_grayPaper, sumChan, pixCount]

theorem mean_g_grayPaper : mean_g grayPaper = 100 := by
  norm_num [mean_g, roi_grayPaper, sumChan, pixCount]

theorem mean_r_grayPaper : mean_r grayPaper = 100 := by
  norm_num [mean_r, roi_grayPaper, sumChan, pixCount]

theorem mean_b_tealPaper : mean_b tealPaper = 50 := by
  norm_num [mean_b, roi_tealPaper, sumChan, pixCount]

theorem mean_g_tealPaper : mean_g tealPaper = 200 := by
  norm_num [mean_g, roi_tealPaper, sumChan, pixCount]

theorem mean_r_tealPaper : mean_r tealPaper = 200 := by
  norm_num [mean_r, roi_tealPaper, sumChan, pixCount]

theorem mean_b_whitePaper : mean_b whitePaper = 255 := by
  norm_num [mean_b, roi_whitePaper, sumChan, pixCount]

theorem mean_g_whitePaper : mean_g whitePaper = 255 := by
  norm_num [mean_g, roi_whitePaper, sumChan, pixCount]

theorem mean_r_whitePaper : mean_r whitePaper = 255 := by
  norm_num [mean_r, roi_whitePaper, sumChan, pixCount]

theorem mean_b_blackPaper : mean_b blackPaper = 0 := by
  norm_num [mean_b, roi_blackPaper, sumChan, pixCount]

theorem mean_g_blackPaper : mean_g blackPaper = 0 := by
  norm_num [mean_g, roi_blackPaper, sumChan, pixCount]

theorem mean_r_blackPaper : mean_r blackPaper = 0 := by
  norm_num [mean_r, roi_blackPaper, sumChan, pixCount]

theorem blue_dominant_bluePaper : blue_dominant bluePaper = true := by
  norm_num [blue_dominant, mean_b_bluePaper, mean_g_bluePaper, mean_r_bluePaper]

theorem blue_dominant_grayPaper : blue_dominant grayPaper = false := by
  norm_num [blue_dominant, mean_b_grayPaper, mean_g_grayPaper, mean_r_grayPaper]

theorem blue_dominant_tealPaper : blue_dominant tealPaper = false := by
  norm_num [blue_dominant, mean_b_tealPaper, mean_g_tealPaper, mean_r_tealPaper]

theorem blue_dominant_whitePaper : blue_dominant whitePaper = false := by
  norm_num [blue_dominant, mean_b_whitePaper, mean_g_whitePaper, mean_r_whitePaper]

theorem blue_dominant_blackPaper : blue_dominant blackPaper = false := by
  norm_num [blue_dominant, mean_b_blackPaper, mean_g_blackPaper, mean_r_blackPaper]

theorem channel_ratios_tealPaper : channel_ratios tealPaper = (1/9, 4/9, 4/9) := by
  norm_num [channel_ratios, mean_b_tealPaper, mean_g_tealPaper, mean_r_tealPaper]

theorem channel_ratios_blackPaper : channel_ratios blackPaper = (33/100, 33/100, 33/100) := by
  norm_num [channel_ratios, mean_b_blackPaper, mean_g_blackPaper, mean_r_blackPaper]

theorem cotton_purity_tealPaper : cotton_purity tealPaper = 800/9 := by
  norm_num [cotton_purity, channel_ratios_tealPaper]

/-! ## Branch lemmas for the classifier -/

theorem classify_item_bad (f : Frame) (h : blue_dominant f = true) :
    classify_item f =
      { result := "BAD"
        purity := round1 (max 0 (100 - poly_contamination f))
        composition := fmt0 (max 0 (100 - poly_contamination f)) ++ "% Cotton, "
          ++ fmt0 (poly_contamination f) ++ "% Poly Blend"
        cotton_pct := round1 (cotton_purity f)
        poly_pct := round1 (poly_contamination f) } := by
  simp [classify_item, h]

theorem classify_item_good (f : Frame) (h : blue_dominant f = false) :
    classify_item f =
      { result := "GOOD"
        purity := round1 (min 100 (cotton_purity f + 10))
        composition := if min 100 (cotton_purity f + 10) ≥ 98 then "100% Pure Cotton"
          else fmt0 (min 100 (cotton_purity f + 10)) ++ "% Cotton"
        cotton_pct := round1 (cotton_purity f)
        poly_pct := round1 (poly_contamination f) } := by
  simp [classify_item, h]

theorem blue_dominant_iff (f : Frame) :
    blue_dominant f = true ↔ mean_b f > mean_g f + 20 ∧ mean_b f > mean_r f + 20 := by
  simp [blue_dominant]

theorem result_eq_bad_iff (f : Frame) :
    (classify_item f).result = "BAD" ↔ blue_dominant f = true := by
  cases h : blue_dominant f
  · rw [classify_item_good f h]
    simp
  · rw [classify_item_bad f h]
    simp

theorem result_eq_good_iff (f : Frame) :
    (classify_item f).result = "GOOD" ↔ blue_dominant f = false := by
  cases h : blue_dominant f
  · rw [classify_item_good f h]
    simp
  · rw [classify_item_bad f h]
    simp

/-- No cotton-percentage string collides with the pure-cotton string. -/
theorem percent_cotton_ne_pure (s : String) : s ++ "% Cotton" ≠ "100% Pure Cotton" := by
  intro h
  have h2 : s.data ++ ("% Cotton").data = ("100% Pure Cotton").data := congrArg String.data h
  have h3 : ("100% Pure Cotton").data
      = ['1', '0', '0', '%', ' ', 'P', 'u', 'r'] ++ ['e', ' ', 'C', 'o', 't', 't', 'o', 'n'] := by
    decide
  have h4 : ("% Cotton").data = ['%', ' ', 'C', 'o', 't', 't', 'o', 'n'] := by decide
  rw [h3, h4] at h2
  have hl : s.data.length = (['1', '0', '0', '%', ' ', 'P', 'u', 'r'] : List Char).length := by
    have h6 := congrArg List.length h2
    simp at h6 ⊢
    omega
  have h5 := (List.append_inj h2 hl).2
  exact absurd h5 (by decide)

/-! ## Claim theorems -/

/-- Claim C8: saving the counters and loading them back round-trips every
field of the persisted record exactly, except that `save_data` always
stamps a fresh `last_update` (the save time). -/
theorem c8_save_then_load_round_trips (g g0 : Globals) (now : ℚ) :
    load_data (save_data g now) g0 =
      (g, { total_scanned := some g.total_scanned, good_count := some g.good_count,
            bad_count := some g.bad_count, last_update := some now, last_result := none }) := rfl

/-- Claim C9: `load_data` returns the zero-valued counters dict whenever
the file is missing, unreadable/corrupt, a non-object document, or the
document `null`; the embedding is a total function, so no error is ever
propagated to the caller. -/
theorem c9_load_swallows_corruption (g : Globals) :
    load_data .missing g = (g, zeroDict) ∧ load_data .corrupt g = (g, zeroDict) ∧
    load_data .null g = (g, zeroDict) ∧ load_data .nonDict g = (g, zeroDict) :=
  ⟨rfl, rfl, rfl, rfl⟩

/-- Claim C10: `load_data` assigns the module globals only when the file
parses to a JSON object; on a missing, corrupt, or null file the globals
keep their previous values while the returned dict is zero-valued — so
the returned value and what a subsequent `save_data` persists can
disagree (globals (5,3,2) with a missing file: load returns zeros, save
persists 5/3/2). -/
theorem c10_globals_mutation_guarded (fc : FileContent) (g : Globals) :
    ((load_data fc g).1 ≠ g → ∃ t gd b lu lr, fc = FileContent.doc t gd b lu lr) ∧
    ((fc = .missing ∨ fc = .corrupt ∨ fc = .null) →
      (load_data fc g).1 = g ∧ (load_data fc g).2 = zeroDict) ∧
    ((load_data .missing ⟨5, 3, 2⟩).2 = zeroDict ∧
      save_data (load_data .missing ⟨5, 3, 2⟩).1 0
        = .doc (some 5) (some 3) (some 2) (some 0) none) := by
  refine ⟨?_, ?_, rfl, rfl⟩
  · intro h
    cases fc
    case doc t gd b lu lr => exact ⟨t, gd, b, lu, lr, rfl⟩
    all_goals exact absurd rfl h
  · rintro (rfl | rfl | rfl) <;> exact ⟨rfl, rfl⟩

/-- Claim C10 witness: the corrupt-file case at concrete globals. -/
theorem c10_witness :
    (load_data .corrupt ⟨7, 4, 3⟩).1 = (⟨7, 4, 3⟩ : Globals) ∧
    (load_data .corrupt ⟨7, 4, 3⟩).2 = zeroDict :=
  (c10_globals_mutation_guarded .corrupt ⟨7, 4, 3⟩).2.1 (Or.inr (Or.inl rfl))

/-- Claim C4: the classifier returns BAD exactly when the ROI mean blue
channel exceeds both the mean green and the mean red channel by strictly
more than 20, and GOOD otherwise; in particular a uniform mid-gray frame
is GOOD, a uniform BGR (200,50,50) frame is BAD, and a uniform BGR
(50,200,200) frame is GOOD. -/
theorem c4_decision_rule (f : Frame) :
    ((classify_item f).result = "BAD" ↔
      mean_b f > mean_g f + 20 ∧ mean_b f > mean_r f + 20) ∧
    ((classify_item f).result = "GOOD" ↔
      ¬(mean_b f > mean_g f + 20 ∧ mean_b f > mean_r f + 20)) ∧
    (classify_item grayPaper).result = "GOOD" ∧
    (classify_item bluePaper).result = "BAD" ∧
    (classify_item tealPaper).result = "GOOD" := by
  refine ⟨?_, ?_, ?_, ?_, ?_⟩
  · rw [result_eq_bad_iff, blue_dominant_iff]
  · rw [result_eq_good_iff, ← blue_dominant_iff]
    simp
  · exact (result_eq_good_iff grayPaper).mpr blue_dominant_grayPaper
  · exact (result_eq_bad_iff bluePaper).mpr blue_dominant_bluePaper
  · exact (result_eq_good_iff tealPaper).mpr blue_dominant_tealPaper

/-- Claim C3 counterexample: on an 8x8 frame the ROI has side length 4,
not min(w, h) / 4 = 2 as claimed — the crop runs from center − box to
center + box with box = min(w, h) // 4, so its side is twice that. -/
theorem c3_counterexample :
    frameH eightFrame = 8 ∧ frameW eightFrame = 8 ∧
    (roi eightFrame).length = 4 ∧
    (roi eightFrame).length ≠ min (frameW eightFrame) (frameH eightFrame) / 4 := by
  decide

/-- Claim C3 as amended: for every rectangular frame with h, w ≥ 4 the
ROI is a square of side 2 * (min(w, h) // 4) — roughly half, not a
quarter, of the shorter image dimension. -/
theorem c3_roi_side_amended (f : Frame) (hrect : Rectangular f)
    (hh : 4 ≤ frameH f) (hw : 4 ≤ frameW f) :
    (roi f).length = 2 * (min (frameW f) (frameH f) / 4) ∧
    ∀ row ∈ roi f, row.length = 2 * (min (frameW f) (frameH f) / 4) := by
  constructor
  · simp only [roi, frameH, frameW, List.length_map, List.length_take, List.length_drop]
    simp only [frameH, frameW] at hh hw
    omega
  · intro row hrow
    simp only [roi, List.mem_map] at hrow
    obtain ⟨r, hr, rfl⟩ := hrow
    have hrf : r ∈ f := List.mem_of_mem_drop (List.mem_of_mem_take hr)
    have hlen := hrect r hrf
    simp only [frameH, frameW] at hh hw hlen
    simp only [List.length_take, List.length_drop, hlen, frameH, frameW]
    omega

/-- Claim C3 witness: the amended statement evaluated on a concrete
5x6 frame, whose ROI is a 2x2 square. -/
theorem c3_roi_side_witness :
    Rectangular smallFrame ∧ 4 ≤ frameH smallFrame ∧ 4 ≤ frameW smallFrame ∧
    (roi smallFrame).length = 2 * (min (frameW smallFrame) (frameH smallFrame) / 4) := by
  have hrect : Rectangular smallFrame := by
    unfold Rectangular
    decide
  refine ⟨hrect, by decide, by decide, ?_⟩
  exact (c3_roi_side_amended smallFrame hrect (by decide) (by decide)).1

/-- Claim C5: for every frame, a BAD result carries purity
round1(max(0, 100 − poly_contamination)); a GOOD result carries purity
round1(min(100, cotton_purity + 10)) and its composition reads
"100% Pure Cotton" exactly when min(100, cotton_purity + 10) ≥ 98; the
cotton/poly percentages in the result are rounded to one decimal. -/
theorem c5_purity_composition (f : Frame) :
    ((classify_item f).result = "BAD" →
      (classify_item f).purity = round1 (max 0 (100 - poly_contamination f))) ∧
    ((classify_item f).result = "GOOD" →
      (classify_item f).purity = round1 (min 100 (cotton_purity f + 10)) ∧
      ((classify_item f).composition = "100% Pure Cotton" ↔
        98 ≤ min 100 (cotton_purity f + 10))) ∧
    (classify_item f).cotton_pct = round1 (cotton_purity f) ∧
    (classify_item f).poly_pct = round1 (poly_contamination f) := by
  cases h : blue_dominant f
  · rw [classify_item_good f h]
    refine ⟨fun hh => absurd hh (by simp), fun _ => ⟨rfl, ?_⟩, rfl, rfl⟩
    by_cases hc : 98 ≤ min 100 (cotton_purity f + 10)
    · simp [hc]
    · simp [hc, percent_cotton_ne_pure]
  · rw [classify_item_bad f h]
    exact ⟨fun _ => rfl, fun hh => absurd hh (by simp), rfl, rfl⟩

/-- Claim C5 witness: the uniform BGR (50,200,200) frame is GOOD with
cotton_purity 800/9, so min(100, cotton_purity + 10) = 890/9 ≥ 98 and the
composition is exactly the pure-cotton string. -/
theorem c5_purity_witness :
    (classify_item tealPaper).result = "GOOD" ∧
    (classify_item tealPaper).purity = round1 (min 100 (cotton_purity tealPaper + 10)) ∧
    (classify_item tealPaper).composition = "100% Pure Cotton" := by
  have hres : (classify_item tealPaper).result = "GOOD" :=
    (result_eq_good_iff tealPaper).mpr blue_dominant_tealPaper
  have h := (c5_purity_composition tealPaper).2.1 hres
  refine ⟨hres, h.1, h.2.mpr ?_⟩
  rw [cotton_purity_tealPaper]
  norm_num

/-- Claim C6 counterexample: on an all-black frame every channel mean is
0, yet the fractions are each 0.33 — not 1/3 — and they sum to 99/100,
not 1. -/
theorem c6_counterexample :
    mean_b blackPaper + mean_g blackPaper + mean_r blackPaper = 0 ∧
    (channel_ratios blackPaper).1 ≠ 1/3 ∧
    (channel_ratios blackPaper).1 + (channel_ratios blackPaper).2.1
      + (channel_ratios blackPaper).2.2 ≠ 1 := by
  rw [mean_b_blackPaper, mean_g_blackPaper, mean_r_blackPaper, channel_ratios_blackPaper]
  norm_num

/-- Claim C6 as amended: when the three channel means sum to zero each
fraction defaults to 0.33 (so they sum to 0.99); whenever the total is
positive the three fractions sum to exactly 1. -/
theorem c6_ratios_amended (f : Frame) :
    (mean_b f + mean_g f + mean_r f = 0 →
      channel_ratios f = (33/100, 33/100, 33/100)) ∧
    (0 < mean_b f + mean_g f + mean_r f →
      (channel_ratios f).1 + (channel_ratios f).2.1 + (channel_ratios f).2.2 = 1) := by
  constructor
  · intro h
    simp [channel_ratios, h]
  · intro h
    simp only [channel_ratios, gt_iff_lt, if_pos h]
    rw [div_add_div_same, div_add_div_same, div_self h.ne']

/-- Claim C6 witness: on the uniform mid-gray frame the total mean is
positive and the three fractions sum to 1. -/
theorem c6_ratios_witness :
    0 < mean_b grayPaper + mean_g grayPaper + mean_r grayPaper ∧
    (channel_ratios grayPaper).1 + (channel_ratios grayPaper).2.1
      + (channel_ratios grayPaper).2.2 = 1 := by
  have hpos : 0 < mean_b grayPaper + mean_g grayPaper + mean_r grayPaper := by
    rw [mean_b_grayPaper, mean_g_grayPaper, mean_r_grayPaper]
    norm_num
  exact ⟨hpos, (c6_ratios_amended grayPaper).2 hpos⟩

/-- Claim C1: evaluation of a completed web scan at concrete state.
Starting from persisted counters (5, 3, 2) and matching globals, a
successful scan leaves the persisted counters at (5, 3, 2) — only the
timestamp is refreshed and `last_result` is still absent — because
`save_data` writes the fibertrace_demo module globals, which
`perform_scan` never increments (it increments only its local dict).
A subsequent load therefore still returns total_scanned = 5. -/
theorem c1_completed_scan_persists_stale_counters :
    (perform_scan webState (some whitePaper) 200 none).1.file
      = .doc (some 5) (some 3) (some 2) (some 200) none ∧
    (load_data (perform_scan webState (some whitePaper) 200 none).1.file ⟨0, 0, 0⟩).2.total_scanned
      = some 5 := by
  have h : (perform_scan webState (some whitePaper) 200 none).1.file
      = .doc (some 5) (some 3) (some 2) (some 200) none := by
    simp [perform_scan, webState, load_data, save_data]
  exact ⟨h, by rw [h]; rfl⟩

/-- Claim C7: evaluation of the counter update of `perform_scan` at
counters (5, 3, 2) with a frame the classifier marks GOOD.  The update
yields total 6, good 3, bad 3 instead of the claimed (6, 4, 2), and
`last_result` holds the whole classification dict rather than the
decision, because `result == "GOOD"` compares a dict with a string and
is always False. -/
theorem c7_update_increments_wrong_counter :
    (classify_item whitePaper).result = "GOOD" ∧
    (perform_scan webState (some whitePaper) 200 none).2
      = .success (classify_item whitePaper)
          ⟨some 6, some 3, some 3, some 200, some (Sum.inr (classify_item whitePaper))⟩ := by
  refine ⟨(result_eq_good_iff whitePaper).mpr blue_dominant_whitePaper, ?_⟩
  simp [perform_scan, webState, load_data]

/-- Claim C2 counterexample: an unexpected exception raised while moving
the gate (after the LEDs were set) makes the scan return a failure, but
the red LED is left on — the hardware is not in the neutral state. -/
theorem c2_counterexample :
    (perform_scan webState (some whitePaper) 200 (some .atGate)).2 = .failure "exn" ∧
    (perform_scan webState (some whitePaper) 200 (some .atGate)).1.hw.red = true ∧
    (perform_scan webState (some whitePaper) 200 (some .atGate)).1.hw ≠ neutralHw := by
  have h : perform_scan webState (some whitePaper) 200 (some .atGate)
      = (⟨⟨5, 3, 2⟩, .doc (some 5) (some 3) (some 2) (some 100) none,
          ⟨false, true, CENTER_ANGLE⟩⟩, .failure "exn") := by
    simp [perform_scan, webState, load_data, neutralHw]
  rw [h]
  refine ⟨rfl, rfl, by decide⟩

/-- Claim C2 as amended: every failing scan (no frame, or an unexpected
exception at any phase) returns an explicit failure report and never
applies a counter increment: the persisted counters are unchanged except
that a failure after the save step may rewrite the file with the
pre-scan in-memory globals, and the in-memory globals are either
unchanged or overwritten from the file by load_data; the LEDs/gate,
however, are not rolled back to neutral. -/
theorem c2_failure_no_partial_increments (st : ScanState) (frame : Option Frame)
    (now : ℚ) (exn : Option RaisePoint)
    (h : frame = none ∨ ∃ p, exn = some p) :
    (∃ e, (perform_scan st frame now exn).2 = .failure e) ∧
    (persistedCounters (perform_scan st frame now exn).1.file = persistedCounters st.file ∨
      persistedCounters (perform_scan st frame now exn).1.file
        = (st.g.total_scanned, st.g.good_count, st.g.bad_count)) ∧
    ((perform_scan st frame now exn).1.g = st.g ∨
      (perform_scan st frame now exn).1.g = (load_data st.file st.g).1) := by
  rcases h with rfl | ⟨p, rfl⟩
  · exact ⟨⟨"Could not capture frame", rfl⟩, Or.inl rfl, Or.inl rfl⟩
  · cases frame with
    | none => exact ⟨⟨"Could not capture frame", rfl⟩, Or.inl rfl, Or.inl rfl⟩
    | some fr =>
      cases p
      case atImwrite =>
        exact ⟨⟨"exn", by simp [perform_scan]⟩, Or.inl (by simp [perform_scan]),
          Or.inl (by simp [perform_scan])⟩
      case atClassify =>
        exact ⟨⟨"exn", by simp [perform_scan]⟩, Or.inl (by simp [perform_scan]),
          Or.inl (by simp [perform_scan])⟩
      case atLoad =>
        exact ⟨⟨"exn", by simp [perform_scan]⟩, Or.inl (by simp [perform_scan]),
          Or.inl (by simp [perform_scan])⟩
      case atLed =>
        exact ⟨⟨"exn", by simp [perform_scan]⟩, Or.inl (by simp [perform_scan]),
          Or.inr (by simp [perform_scan])⟩
      case atGate =>
        exact ⟨⟨"exn", by simp [perform_scan]⟩, Or.inl (by simp [perform_scan]),
          Or.inr (by simp [perform_scan])⟩
      case atSave =>
        exact ⟨⟨"exn", by simp [perform_scan]⟩, Or.inl (by simp [perform_scan]),
          Or.inr (by simp [perform_scan])⟩
      case atReset =>
        refine ⟨⟨"exn", by simp [perform_scan]⟩, ?_, Or.inr (by simp [perform_scan])⟩
        cases hf : st.file
        case doc t gd b lu lr =>
          exact Or.inl (by simp [perform_scan, hf, load_data, save_data, persistedCounters])
        all_goals
          exact Or.inr (by simp [perform_scan, hf, load_data, save_data, persistedCounters])

/-- Claim C2 witness: the amended statement at the concrete state with a
missing frame. -/
theorem c2_failure_witness :
    (∃ e, (perform_scan webState none 0 none).2 = .failure e) ∧
    (persistedCounters (perform_scan webState none 0 none).1.file
        = persistedCounters webState.file ∨
      persistedCounters (perform_scan webState none 0 none).1.file
        = (webState.g.total_scanned, webState.g.good_count, webState.g.bad_count)) := by
  have h := c2_failure_no_partial_increments webState none 0 none (Or.inl rfl)
  exact ⟨h.1, h.2.1⟩

end FiberTrace
